import Mathlib

/-!
# Verification of the nanobot GitHub Copilot credential core

Shallow embedding of `nanobot/providers/github_copilot_token.py` and
`nanobot/providers/github_copilot_auth.py`.  Network effects are made
explicit: functions that read HTTP responses take the parsed response as an
argument, functions that touch the cache file take and return an explicit
filesystem state, and `time.time()` is passed in as `now`.  JSON values
parsed by `json.load` / `response.json()` are modelled by `JVal`, and the
dynamic typing of Python's `in` operator is modelled by `pyContains`, which
can fail with a `TypeError` exactly where CPython would raise one.
-/

namespace Nanobot

/-- A JSON value as produced by `json.load` / `response.json()`. -/
inductive JVal where
  | str (s : String)
  | num (n : Int)
  | arr (xs : List JVal)
  | obj (fields : List (String × JVal))

/-- Python runtime errors that the modelled code can raise and does not
catch.  `typeError` models `TypeError`. -/
inductive PyErr where
  | typeError
deriving Repr, DecidableEq

/-- Python's substring test `needle in hay`, on character lists. -/
def hasSubstring : List Char → List Char → Bool
  | [], needle => needle.isEmpty
  | c :: t, needle => needle.isPrefixOf (c :: t) || hasSubstring t needle

/-- Python's `key in data` for a string `key` and a JSON-decoded `data`:
dict membership on keys, list membership, substring test on strings, and an
uncaught `TypeError` on numbers (which are not containers). -/
def pyContains (v : JVal) (key : String) : Except PyErr Bool :=
  match v with
  | .obj fields => .ok (fields.any (fun kv => kv.1 == key))
  | .arr xs => .ok (xs.any (fun x => match x with | .str s => s == key | _ => false))
  | .str s => .ok (hasSubstring s.data key.data)
  | .num _ => .error .typeError

/-- The keys of a JSON object (empty for non-objects). -/
def objKeys : JVal → List String
  | .obj fields => fields.map (fun kv => kv.1)
  | _ => []

/-- `DEFAULT_COPILOT_BASE_URL` from `github_copilot_token.py`. -/
def DEFAULT_COPILOT_BASE_URL : String := "https://api.individual.githubcopilot.com"

/-- `EXPIRY_MARGIN_MS = 5 * 60 * 1000`: the 5-minute (300 second) safety
margin, in milliseconds. -/
def EXPIRY_MARGIN_MS : Int := 5 * 60 * 1000

/-- The JSON object that `_save_token_cache` writes:
`{"token": token, "expiresAt": expires_at_ms, "updatedAt": now_ms}`. -/
def save_token_data (token : String) (expires_at_ms : Int) (now_ms : Int) : JVal :=
  .obj [("token", .str token), ("expiresAt", .num expires_at_ms),
        ("updatedAt", .num now_ms)]

/-- State of the on-disk cache file: missing, present but not valid JSON
(so `json.load` raises `JSONDecodeError`), or valid JSON. -/
inductive FileState where
  | absent
  | notJson
  | json (v : JVal)

/-- The filesystem as seen by the cache module: whether the parent
directory of `TOKEN_CACHE_PATH` exists, and the cache file's state. -/
structure CacheFS where
  dirExists : Bool
  file : FileState

/-- `_ensure_cache_dir`: `mkdir(parents=True, exist_ok=True)`. -/
def _ensure_cache_dir (fs : CacheFS) : CacheFS :=
  { fs with dirExists := true }

/-- `_save_token_cache`: ensures the directory exists, then overwrites the
cache file with `save_token_data`. -/
def _save_token_cache (fs : CacheFS) (token : String) (expires_at_ms : Int)
    (now_ms : Int) : CacheFS :=
  { _ensure_cache_dir fs with file := .json (save_token_data token expires_at_ms now_ms) }

/-- The structure check of `_load_cached_token`:
`all(key in data for key in ["token", "expiresAt", "updatedAt"])`, with
Python's short-circuit evaluation of the generator. -/
def loadFieldCheck (v : JVal) : Except PyErr Bool :=
  match pyContains v "token" with
  | .error e => .error e
  | .ok false => .ok false
  | .ok true =>
    match pyContains v "expiresAt" with
    | .error e => .error e
    | .ok false => .ok false
    | .ok true => pyContains v "updatedAt"

/-- `_load_cached_token`: `None` for a missing file, `None` on
`JSONDecodeError`/`OSError` (caught), `None` when the structure check says
a key is missing, the parsed value itself when the check passes — and an
UNCAUGHT `TypeError` when the file holds valid JSON that is not a container
(the `key in data` test raises, and only `JSONDecodeError` and `OSError`
are caught). -/
def _load_cached_token (fs : CacheFS) : Except PyErr (Option JVal) :=
  match fs.file with
  | .absent => .ok none
  | .notJson => .ok none
  | .json v =>
    match loadFieldCheck v with
    | .error e => .error e
    | .ok true => .ok (some v)
    | .ok false => .ok none

/-- A cache record after `_load_cached_token` has validated the presence of
all three keys and the caller reads them with their expected types. -/
structure CacheRec where
  token : String
  expiresAt : Int
  updatedAt : Int
deriving Repr, DecidableEq

/-- `_is_token_valid`: `False` when
`expires_at_ms <= now_ms + EXPIRY_MARGIN_MS`, else `True`. -/
def _is_token_valid (now_ms : Int) (cached : CacheRec) : Bool :=
  if cached.expiresAt ≤ now_ms + EXPIRY_MARGIN_MS then false else true

/-- Which branch `get_copilot_token` returned from: `cache` means the
cached token was returned without invoking `exchange_token` (no network
call); `fresh` means `exchange_token` was invoked. -/
inductive Source where
  | cache
  | fresh
deriving Repr, DecidableEq

/-- `get_copilot_token`, with the cache-load result and the pair that
`exchange_token` would return passed in explicitly.  The `Source` component
records whether the network exchange was invoked. -/
def get_copilot_token (force_refresh : Bool) (cached : Option CacheRec)
    (now_ms : Int) (exchanged : String × String) : (String × String) × Source :=
  if force_refresh = false then
    match cached with
    | some c =>
      if _is_token_valid now_ms c then ((c.token, DEFAULT_COPILOT_BASE_URL), .cache)
      else (exchanged, .fresh)
    | none => (exchanged, .fresh)
  else (exchanged, .fresh)

/-- The fields of a successful exchange-endpoint response that
`exchange_token` reads after the `token` check: the token itself,
`data.get("proxy-ep")` and `data.get("expires_at")`.  A `proxyEp` of
`none` models an absent `proxy-ep` key; an `expiresAt` of `none` models an
absent `expires_at` key. -/
structure ExchangeResponse where
  token : String
  proxyEp : Option String
  expiresAt : Option Int
deriving Repr, DecidableEq

/-- The base-URL computation inlined in `exchange_token`: start from
`DEFAULT_COPILOT_BASE_URL`; if `data.get("proxy-ep")` is truthy (present
and non-empty), rewrite a leading `"proxy."` to `"api."` under `https://`,
else prepend `https://` as is.  The token string is not consulted. -/
def derive_base_url (proxyEp : Option String) : String :=
  match proxyEp with
  | none => DEFAULT_COPILOT_BASE_URL
  | some p =>
    if p = "" then DEFAULT_COPILOT_BASE_URL
    else if "proxy.".data.isPrefixOf p.data then "https://api." ++ ⟨p.data.drop 6⟩
    else "https://" ++ p

/-- The expiry computation inlined in `exchange_token`:
`if expires_at:` (so an absent key and a literal `0` both fall to the
default `now + 30` minutes), else the magnitude heuristic
`expires_at * 1000 if expires_at < 10000000000 else expires_at`. -/
def parse_expires_ms (expiresAt : Option Int) (now_ms : Int) : Int :=
  match expiresAt with
  | some e =>
    if e = 0 then now_ms + 30 * 60 * 1000
    else if e < 10000000000 then e * 1000 else e
  | none => now_ms + 30 * 60 * 1000

/-- The pure tail of `exchange_token` on a successful response: the
returned `(token, base_url)` pair together with the JSON object passed to
`_save_token_cache`. -/
def exchange_parse (r : ExchangeResponse) (now_ms : Int) : (String × String) × JVal :=
  ((r.token, derive_base_url r.proxyEp),
   save_token_data r.token (parse_expires_ms r.expiresAt now_ms) now_ms)

/-- One response of the token-polling endpoint as `poll_for_access_token`
observes it: a non-200 status, a 200 JSON body with an `"error"` key, a
200 body with an `"access_token"`, or a 200 body with neither. -/
inductive PollResponse where
  | httpError (status : Nat)
  | oauthError (code : String)
  | accessToken (tok : String)
  | unexpected
deriving Repr, DecidableEq

/-- `poll_for_access_token`, driven by the list of responses the endpoint
will return, with wall-clock time advanced by the performed sleeps.
Returns the result together with the list of sleep durations, in order.
The `[]` case stands for a trace with no further responses and is not
reached by any theorem below with an adequate trace. -/
def poll_for_access_token (responses : List PollResponse) (interval : Nat)
    (now expiresAt : Nat) : Option String × List Nat :=
  if now < expiresAt then
    match responses with
    | [] => (none, [])
    | r :: rest =>
      match r with
      | .httpError _ => (none, [])
      | .oauthError code =>
        if code = "authorization_pending" then
          let res := poll_for_access_token rest interval (now + interval) expiresAt
          (res.1, interval :: res.2)
        else if code = "slow_down" then
          let res := poll_for_access_token rest interval (now + (interval + 5)) expiresAt
          (res.1, (interval + 5) :: res.2)
        else (none, [])
      | .accessToken t => (some t, [])
      | .unexpected =>
        let res := poll_for_access_token rest interval (now + interval) expiresAt
        (res.1, interval :: res.2)
  else (none, [])

/-- An `httpx.HTTPStatusError` as raised by `response.raise_for_status()`. -/
structure HttpStatusError where
  status : Nat
deriving Repr, DecidableEq

/-- `request_device_code`: `raise_for_status()` on the response, then
`return response.json()` — the body is returned unmodified, with no check
of which fields it contains. -/
def request_device_code (status : Nat) (body : JVal) : Except HttpStatusError JVal :=
  if 400 ≤ status then .error ⟨status⟩ else .ok body

/-- Claim C1: with `force_refresh = false` and a cached record that is
present and valid, `get_copilot_token` returns the cached token (with the
default base URL) and `Source.cache`, without invoking `exchange_token`;
in every other case (`force_refresh = true`, no cached record, or an
invalid cached record) it returns the exchange result with
`Source.fresh`. -/
theorem C1_resolve_cache_vs_fresh (force : Bool) (cached : Option CacheRec)
    (now : Int) (ex : String × String) :
    (∀ c, cached = some c → force = false → _is_token_valid now c = true →
      get_copilot_token force cached now ex = ((c.token, DEFAULT_COPILOT_BASE_URL), .cache))
    ∧ (force = true → get_copilot_token force cached now ex = (ex, .fresh))
    ∧ (cached = none → get_copilot_token force cached now ex = (ex, .fresh))
    ∧ (∀ c, cached = some c → _is_token_valid now c = false →
      get_copilot_token force cached now ex = (ex, .fresh)) := by
  refine ⟨?_, ?_, ?_, ?_⟩
  · intro c hc hf hv
    subst hc; subst hf
    simp [get_copilot_token, hv]
  · intro hf
    subst hf
    simp [get_copilot_token]
  · intro hc
    subst hc
    cases force <;> simp [get_copilot_token]
  · intro c hc hv
    subst hc
    cases force <;> simp [get_copilot_token, hv]

/-- Witness for C1 at concrete inputs: a valid cached record (expiry ms
2000000 against now 0), a forced refresh, an absent cache, and an invalid
cached record (expiry ms 100). -/
theorem C1_resolve_cache_vs_fresh_witness :
    get_copilot_token false (some ⟨"t", 2000000, 0⟩) 0 ("f", "u")
      = (("t", DEFAULT_COPILOT_BASE_URL), .cache)
    ∧ get_copilot_token true (some ⟨"t", 2000000, 0⟩) 0 ("f", "u") = (("f", "u"), .fresh)
    ∧ get_copilot_token false none 0 ("f", "u") = (("f", "u"), .fresh)
    ∧ get_copilot_token false (some ⟨"t", 100, 0⟩) 0 ("f", "u") = (("f", "u"), .fresh) :=
  ⟨(C1_resolve_cache_vs_fresh false (some ⟨"t", 2000000, 0⟩) 0 ("f", "u")).1
      ⟨"t", 2000000, 0⟩ rfl rfl (by decide),
   (C1_resolve_cache_vs_fresh true (some ⟨"t", 2000000, 0⟩) 0 ("f", "u")).2.1 rfl,
   (C1_resolve_cache_vs_fresh false none 0 ("f", "u")).2.2.1 rfl,
   (C1_resolve_cache_vs_fresh false (some ⟨"t", 100, 0⟩) 0 ("f", "u")).2.2.2
      ⟨"t", 100, 0⟩ rfl (by decide)⟩

/-- Claim C2: `_is_token_valid` is true iff `expiresAt > now + margin`,
where the margin is 300 seconds (expressed in milliseconds); at the exact
boundary `expiresAt = now + margin` it is false. -/
theorem C2_is_token_valid_iff (now : Int) (c : CacheRec) (tok : String) (upd : Int) :
    (_is_token_valid now c = true ↔ c.expiresAt > now + EXPIRY_MARGIN_MS)
    ∧ _is_token_valid now ⟨tok, now + EXPIRY_MARGIN_MS, upd⟩ = false
    ∧ EXPIRY_MARGIN_MS = 300 * 1000 := by
  refine ⟨?_, by simp [_is_token_valid], by norm_num [EXPIRY_MARGIN_MS]⟩
  by_cases h : c.expiresAt ≤ now + EXPIRY_MARGIN_MS
  · simp [_is_token_valid, h]
  · simp [_is_token_valid, h]
    omega

/-- Claim C10 (implicit): on every cache hit the resolver returns the
fixed default base URL regardless of the pair the exchange would have
produced, and the cache save operation persists only `token`, `expiresAt`
and `updatedAt` — no `base_url` field ever reaches disk. -/
theorem C10_cache_hit_default_base_url (c : CacheRec) (now : Int)
    (ex : String × String) (h : _is_token_valid now c = true)
    (tok : String) (e nowS : Int) :
    (get_copilot_token false (some c) now ex).1 = (c.token, DEFAULT_COPILOT_BASE_URL)
    ∧ objKeys (save_token_data tok e nowS) = ["token", "expiresAt", "updatedAt"]
    ∧ pyContains (save_token_data tok e nowS) "base_url" = .ok false := by
  refine ⟨by simp [get_copilot_token, h], rfl, rfl⟩

/-- Witness for C10: a cache hit whose original exchange would have
produced the non-default base URL `"https://api.business.githubcopilot.com"`
still yields the default, and a concrete saved object has no `base_url`. -/
theorem C10_cache_hit_default_base_url_witness :
    (get_copilot_token false (some ⟨"t", 2000000, 0⟩) 0
        ("t", "https://api.business.githubcopilot.com")).1
      = ("t", DEFAULT_COPILOT_BASE_URL)
    ∧ objKeys (save_token_data "t" 2000000 0) = ["token", "expiresAt", "updatedAt"]
    ∧ pyContains (save_token_data "t" 2000000 0) "base_url" = .ok false :=
  C10_cache_hit_default_base_url ⟨"t", 2000000, 0⟩ 0
    ("t", "https://api.business.githubcopilot.com") (by decide) "t" 2000000 0

/-- Counterexample to C4: the JSON object written by the cache for
`("t1", 1234567890)` has fields `token`, `expiresAt`, `updatedAt` — it is
not an object with exactly the fields `token`, `expires_at`, `base_url`:
both `expires_at` and `base_url` are absent. -/
theorem C4_counterexample :
    save_token_data "t1" 1234567890 0
      = .obj [("token", .str "t1"), ("expiresAt", .num 1234567890), ("updatedAt", .num 0)]
    ∧ objKeys (save_token_data "t1" 1234567890 0) = ["token", "expiresAt", "updatedAt"]
    ∧ ¬ "expires_at" ∈ objKeys (save_token_data "t1" 1234567890 0)
    ∧ ¬ "base_url" ∈ objKeys (save_token_data "t1" 1234567890 0) := by
  exact ⟨rfl, rfl, by decide, by decide⟩

/-- Claim C4 as amended: saving `(token, expires_at_ms)` and then loading
yields exactly the saved JSON object, whose fields are `token`,
`expiresAt` and `updatedAt` (the save time); the parent directory is
auto-created by the save. -/
theorem C4_cache_round_trip (fs : CacheFS) (tok : String) (e now : Int) :
    _load_cached_token (_save_token_cache fs tok e now)
      = .ok (some (save_token_data tok e now))
    ∧ (_save_token_cache fs tok e now).dirExists = true
    ∧ objKeys (save_token_data tok e now) = ["token", "expiresAt", "updatedAt"] := by
  exact ⟨rfl, rfl, rfl⟩

/-- Counterexample to C5: a cache file holding the valid JSON value `5`
makes `_load_cached_token` raise an uncaught `TypeError` (`key in 5` is a
`TypeError`, and only `JSONDecodeError` and `OSError` are caught). -/
theorem C5_counterexample :
    _load_cached_token ⟨true, .json (.num 5)⟩ = .error .typeError := rfl

/-- Claim C5 as amended: the load degrades to absent for a missing file or
malformed JSON, and for any JSON object it never raises and returns the
object iff the keys `token`, `expiresAt` and `updatedAt` are all present —
but for valid JSON that is not a container (e.g. a number) the membership
check raises an uncaught `TypeError`. -/
theorem C5_load_characterization (b : Bool) (fields : List (String × JVal)) (n : Int) :
    _load_cached_token ⟨b, .absent⟩ = .ok none
    ∧ _load_cached_token ⟨b, .notJson⟩ = .ok none
    ∧ (_load_cached_token ⟨b, .json (.obj fields)⟩
        = if fields.any (fun kv => kv.1 == "token")
              && fields.any (fun kv => kv.1 == "expiresAt")
              && fields.any (fun kv => kv.1 == "updatedAt")
          then .ok (some (.obj fields)) else .ok none)
    ∧ _load_cached_token ⟨b, .json (.num n)⟩ = .error .typeError := by
  refine ⟨rfl, rfl, ?_, rfl⟩
  by_cases h1 : fields.any (fun kv => kv.1 == "token") <;>
    by_cases h2 : fields.any (fun kv => kv.1 == "expiresAt") <;>
      by_cases h3 : fields.any (fun kv => kv.1 == "updatedAt") <;>
        simp [_load_cached_token, loadFieldCheck, pyContains, h1, h2, h3]

/-- Counterexample to C3: two exchange responses with the SAME token
`"abc123"` but different `proxy-ep` fields yield different base URLs, so
the derivation is not a function of the token string; and a token that
itself embeds `;proxy-ep=proxy.enterprise.githubcopilot.com;` yields the
default URL when the separate `proxy-ep` field is absent, not
`https://api.enterprise.githubcopilot.com`. -/
theorem C3_counterexample :
    (exchange_parse ⟨"abc123", some "proxy.enterprise.githubcopilot.com", none⟩ 0).1.2
      = "https://api.enterprise.githubcopilot.com"
    ∧ (exchange_parse ⟨"abc123", none, none⟩ 0).1.2 = DEFAULT_COPILOT_BASE_URL
    ∧ "https://api.enterprise.githubcopilot.com" ≠ DEFAULT_COPILOT_BASE_URL
    ∧ (exchange_parse ⟨"abc123;proxy-ep=proxy.enterprise.githubcopilot.com;", none, none⟩
        0).1.2 = DEFAULT_COPILOT_BASE_URL := by
  exact ⟨by decide, rfl, by decide, rfl⟩

/-- Claim C3 as amended: the base URL is a total pure function of the
response's separate `proxy-ep` field (the token string is not consulted):
absent or empty `proxy-ep` gives the fixed default; a value with leading
`"proxy."` is rewritten to `https://api.` plus the remainder; any other
value is prefixed with `https://`. -/
theorem C3_base_url_from_proxy_ep_field (r : ExchangeResponse) (now : Int) (p : String) :
    (exchange_parse r now).1.2 = derive_base_url r.proxyEp
    ∧ derive_base_url none = DEFAULT_COPILOT_BASE_URL
    ∧ derive_base_url (some "") = DEFAULT_COPILOT_BASE_URL
    ∧ (p ≠ "" → "proxy.".data.isPrefixOf p.data = true →
        derive_base_url (some p) = "https://api." ++ ⟨p.data.drop 6⟩)
    ∧ (p ≠ "" → "proxy.".data.isPrefixOf p.data = false →
        derive_base_url (some p) = "https://" ++ p) := by
  refine ⟨rfl, rfl, rfl, ?_, ?_⟩
  · intro h1 h2
    simp [derive_base_url, h1, h2]
  · intro h1 h2
    simp [derive_base_url, h1, h2]

/-- Witness for C3 as amended, at the hostname from the spec's example. -/
theorem C3_base_url_from_proxy_ep_field_witness :
    "proxy.individual.githubcopilot.com" ≠ ""
    ∧ derive_base_url (some "proxy.individual.githubcopilot.com")
        = "https://api." ++ ⟨"proxy.individual.githubcopilot.com".data.drop 6⟩ :=
  ⟨by decide,
   (C3_base_url_from_proxy_ep_field ⟨"", none, none⟩ 0
      "proxy.individual.githubcopilot.com").2.2.2.1 (by decide) (by decide)⟩

/-- Counterexample to C9: `expires_at` is not interpreted in the single
canonical unit of seconds — `9999999999` is multiplied by 1000 but the
neighbouring `10000000000` is stored as-is, a magnitude guess. -/
theorem C9_counterexample :
    parse_expires_ms (some 9999999999) 0 = 9999999999 * 1000
    ∧ parse_expires_ms (some 10000000000) 0 = 10000000000
    ∧ parse_expires_ms (some 10000000000) 0 ≠ 10000000000 * 1000 := by
  refine ⟨by norm_num [parse_expires_ms], by norm_num [parse_expires_ms],
    by norm_num [parse_expires_ms]⟩

/-- Claim C9 as amended: the stored expiry is guessed by magnitude —
non-zero values below `10^10` are treated as seconds and multiplied by
1000, values at or above `10^10` are stored unchanged as milliseconds —
and an absent (or falsy `0`) `expires_at` defaults to now + 30 minutes;
the result is what `_save_token_cache` receives together with the token. -/
theorem C9_expires_at_magnitude_heuristic (e now : Int) (r : ExchangeResponse) :
    (e ≠ 0 → e < 10000000000 → parse_expires_ms (some e) now = e * 1000)
    ∧ (e ≠ 0 → 10000000000 ≤ e → parse_expires_ms (some e) now = e)
    ∧ parse_expires_ms none now = now + 30 * 60 * 1000
    ∧ parse_expires_ms (some 0) now = now + 30 * 60 * 1000
    ∧ (exchange_parse r now).2
        = save_token_data r.token (parse_expires_ms r.expiresAt now) now := by
  refine ⟨?_, ?_, rfl, by norm_num [parse_expires_ms], rfl⟩
  · intro h1 h2
    simp [parse_expires_ms, h1, h2]
  · intro h1 h2
    simp [parse_expires_ms, h1, not_lt.mpr h2]

/-- Witness for C9 as amended: a small value is scaled to milliseconds, a
large one is stored unchanged. -/
theorem C9_expires_at_magnitude_heuristic_witness :
    parse_expires_ms (some 1234) 0 = 1234 * 1000
    ∧ parse_expires_ms (some 20000000000) 0 = 20000000000 :=
  ⟨(C9_expires_at_magnitude_heuristic 1234 0 ⟨"", none, none⟩).1
      (by norm_num) (by norm_num),
   (C9_expires_at_magnitude_heuristic 20000000000 0 ⟨"", none, none⟩).2.1
      (by norm_num) (by norm_num)⟩

/-- Counterexample to C6: on `[slow_down, slow_down, access_token "T"]`
with base interval 5 the two waits are 10 and 10 — the second wait is not
at least `interval + 5` longer than the first (10 < 10 + 10), so the
increment is not cumulative. -/
theorem C6_counterexample :
    poll_for_access_token
        [.oauthError "slow_down", .oauthError "slow_down", .accessToken "T"] 5 0 900
      = (some "T", [10, 10])
    ∧ ¬ ((poll_for_access_token
          [.oauthError "slow_down", .oauthError "slow_down", .accessToken "T"]
          5 0 900).2.getD 1 0
        ≥ (poll_for_access_token
            [.oauthError "slow_down", .oauthError "slow_down", .accessToken "T"]
            5 0 900).2.getD 0 0 + (5 + 5)) := by
  exact ⟨by decide, by decide⟩

/-- Claim C6 as amended: every `slow_down` response makes the loop wait
`interval + 5` seconds — a fixed 5-second addition to the base interval,
not a cumulative increase: two consecutive `slow_down` responses produce
two equal waits of `interval + 5`. -/
theorem C6_slow_down_waits_fixed (interval now expiresAt : Nat)
    (rest : List PollResponse) (h1 : now < expiresAt)
    (h2 : now + (interval + 5) < expiresAt) :
    poll_for_access_token (.oauthError "slow_down" :: .oauthError "slow_down" :: rest)
        interval now expiresAt
      = ((poll_for_access_token rest interval
            (now + (interval + 5) + (interval + 5)) expiresAt).1,
         (interval + 5) :: (interval + 5) ::
           (poll_for_access_token rest interval
             (now + (interval + 5) + (interval + 5)) expiresAt).2) := by
  conv_lhs => rw [poll_for_access_token]
  rw [if_pos h1, if_neg (by decide : ¬ ("slow_down" = "authorization_pending")),
    if_pos (rfl : "slow_down" = "slow_down")]
  show ((poll_for_access_token (.oauthError "slow_down" :: rest) interval
          (now + (interval + 5)) expiresAt).1,
        (interval + 5) :: (poll_for_access_token (.oauthError "slow_down" :: rest)
          interval (now + (interval + 5)) expiresAt).2) = _
  conv_lhs => rw [poll_for_access_token]
  rw [if_pos h2, if_neg (by decide : ¬ ("slow_down" = "authorization_pending")),
    if_pos (rfl : "slow_down" = "slow_down")]

/-- Witness for C6 as amended at interval 5. -/
theorem C6_slow_down_waits_fixed_witness :
    poll_for_access_token
        [.oauthError "slow_down", .oauthError "slow_down", .accessToken "T"] 5 0 900
      = (some "T", [5 + 5, 5 + 5]) := by
  have h := C6_slow_down_waits_fixed 5 0 900 [.accessToken "T"] (by decide) (by decide)
  simpa using h

/-- Claim C7 theorem (for the code_bug record): `request_device_code` does
no field validation at all — for any 2xx/3xx status it returns the parsed
body unmodified, however incomplete, instead of failing on missing
fields. -/
theorem C7_request_device_code_returns_body_unvalidated (status : Nat) (body : JVal)
    (h : status < 400) :
    request_device_code status body = .ok body := by
  simp [request_device_code, Nat.not_le.mpr h]

/-- Witness for C7: the failing input from the repository's own test — an
HTTP 200 body containing only `device_code` — is returned unmodified, with
no error. -/
theorem C7_request_device_code_returns_body_unvalidated_witness :
    request_device_code 200 (.obj [("device_code", .str "test_device_code")])
      = .ok (.obj [("device_code", .str "test_device_code")]) :=
  C7_request_device_code_returns_body_unvalidated 200
    (.obj [("device_code", .str "test_device_code")]) (by decide)

/-- Counterexample to C8: the terminal outcomes are not distinct — an
`expired_token` response, an `access_denied` response, any other error
code, and an exceeded deadline all produce the very same result
`(none, [])`, so no caller can distinguish them. -/
theorem C8_counterexample :
    poll_for_access_token [.oauthError "expired_token"] 5 0 900 = (none, [])
    ∧ poll_for_access_token [.oauthError "access_denied"] 5 0 900 = (none, [])
    ∧ poll_for_access_token [.oauthError "expired_token"] 5 0 900
        = poll_for_access_token [.oauthError "access_denied"] 5 0 900
    ∧ poll_for_access_token [.oauthError "bad_verification_code"] 5 0 900 = (none, [])
    ∧ poll_for_access_token [.accessToken "T"] 5 3 3 = (none, []) := by
  exact ⟨by decide, by decide, by decide, by decide, by decide⟩

/-- Claim C8 as amended: every terminal failure of `poll_for_access_token`
is reported identically as `none` — `expired_token`, `access_denied`, any
other error code, and reaching the deadline with no terminal result — so
the outcomes are distinguishable only on the console, not by the
caller. -/
theorem C8_terminal_outcomes_all_none (interval now expiresAt : Nat)
    (rest : List PollResponse) (c : String) (rs : List PollResponse) (i n e : Nat)
    (h : now < expiresAt) (hc1 : c ≠ "authorization_pending") (hc2 : c ≠ "slow_down")
    (hd : e ≤ n) :
    poll_for_access_token (.oauthError "expired_token" :: rest) interval now expiresAt
      = (none, [])
    ∧ poll_for_access_token (.oauthError "access_denied" :: rest) interval now expiresAt
      = (none, [])
    ∧ poll_for_access_token (.oauthError c :: rest) interval now expiresAt = (none, [])
    ∧ poll_for_access_token rs i n e = (none, []) := by
  refine ⟨?_, ?_, ?_, ?_⟩
  · rw [poll_for_access_token, if_pos h,
      if_neg (by decide : ¬ ("expired_token" = "authorization_pending")),
      if_neg (by decide : ¬ ("expired_token" = "slow_down"))]
  · rw [poll_for_access_token, if_pos h,
      if_neg (by decide : ¬ ("access_denied" = "authorization_pending")),
      if_neg (by decide : ¬ ("access_denied" = "slow_down"))]
  · rw [poll_for_access_token, if_pos h]
    simp [hc1, hc2]
  · rw [poll_for_access_token.eq_def, if_neg (Nat.not_lt.mpr hd)]

/-- Witness for C8 as amended at concrete inputs, including a deadline
that is already past (`expiresAt = now = 3`). -/
theorem C8_terminal_outcomes_all_none_witness :
    poll_for_access_token [.oauthError "expired_token"] 5 0 900 = (none, [])
    ∧ poll_for_access_token [.oauthError "access_denied"] 5 0 900 = (none, [])
    ∧ poll_for_access_token [.oauthError "unsupported_grant_type"] 5 0 900 = (none, [])
    ∧ poll_for_access_token [.accessToken "T"] 5 3 3 = (none, []) :=
  C8_terminal_outcomes_all_none 5 0 900 [] "unsupported_grant_type"
    [.accessToken "T"] 5 3 3 (by decide) (by decide) (by decide) (by decide)

end Nanobot
